import Mathlib

/-
  Verification of the Shoe Store backend (src/main.py, src/schemas.py).

  The service is embedded shallowly:
  * a stored document is an association list of string keys to values
    (the Python dict used by the handlers and the document store);
  * the document store handle `db` is an `Option DBState`: `none` models the
    module-level handle being unset, `some s` a connected database whose
    operations fail with message `m` whenever `s.failMsg = some m`
    (modelling an exception raised by a store call);
  * every endpoint is a pure function from the store handle (and request
    data) to an HTTP response, paired with the resulting store state where
    the endpoint can write.

  The adapter functions `create_document` and `get_documents` are imported
  by src/main.py from a database module that is not part of src/; they are
  modelled from the spec, and their doc comments say so.
-/

namespace ShoeStore

/-- A field value of a stored document: the value shapes that occur in this
repository (strings, numbers modelled as rationals, booleans, null, the
store-native object identifier, timestamps, and the string / number arrays
used by the shoe fields). -/
inductive Val where
  | str (s : String)
  | num (q : ℚ)
  | bool (b : Bool)
  | null
  | oid (n : ℕ)
  | time (t : ℕ)
  | strs (l : List String)
  | nums (l : List ℚ)
  deriving DecidableEq

/-- A document: a Python dict / stored record, as an association list. -/
abbrev Doc := List (String × Val)

/-- Dict lookup: `d[k]` (`none` when the key is absent). -/
def Doc.get : Doc → String → Option Val
  | [], _ => none
  | (k2, v) :: d, k => if k2 = k then some v else Doc.get d k

/-- Dict key deletion: `del d[k]`. -/
def Doc.erase : Doc → String → Doc
  | [], _ => []
  | (k2, v) :: d, k => if k2 = k then Doc.erase d k else (k2, v) :: Doc.erase d k

/-- Dict assignment `d[k] = v`: the key is bound to `v`, any former binding
is dropped. -/
def Doc.set (d : Doc) (k : String) (v : Val) : Doc :=
  (k, v) :: Doc.erase d k

theorem Doc.get_erase_same (d : Doc) (k : String) :
    Doc.get (Doc.erase d k) k = none := by
  induction d with
  | nil => rfl
  | cons p d ih =>
    obtain ⟨k2, v⟩ := p
    by_cases h : k2 = k
    · simpa [Doc.erase, h] using ih
    · simpa [Doc.erase, Doc.get, h] using ih

theorem Doc.get_erase_ne (d : Doc) (k k2 : String) (h : k ≠ k2) :
    Doc.get (Doc.erase d k) k2 = Doc.get d k2 := by
  induction d with
  | nil => rfl
  | cons p d ih =>
    obtain ⟨k3, v⟩ := p
    by_cases h3 : k3 = k
    · subst h3
      simpa [Doc.erase, Doc.get, h] using ih
    · by_cases h4 : k3 = k2
      · subst h4
        simp [Doc.erase, Doc.get, h3, Ne.symm h]
      · simp [Doc.erase, Doc.get, h3, h4, ih]

theorem Doc.get_set_same (d : Doc) (k : String) (v : Val) :
    Doc.get (Doc.set d k v) k = some v := by
  simp [Doc.set, Doc.get]

theorem Doc.get_set_ne (d : Doc) (k k2 : String) (v : Val) (h : k ≠ k2) :
    Doc.get (Doc.set d k v) k2 = Doc.get d k2 := by
  simp [Doc.set, Doc.get, fun h2 => h h2]
  exact Doc.get_erase_ne d k k2 h

/-- The connected document store: the single "shoe" collection (documents in
insertion order), the next native identifier the store will assign, a
pending failure (`some m` makes every collection operation raise `m`,
modelling an unreachable server behind a set handle), the collection names
the store reports, and the database name. -/
structure DBState where
  shoes : List Doc
  nextId : ℕ
  failMsg : Option String
  collectionNames : List String
  dbName : String
  deriving DecidableEq

/-- An HTTP response: either a JSON body with a status code, or an error
status with a detail message (4xx = client error, 500 = server error /
unhandled exception). -/
inductive Resp (α : Type) where
  | ok (status : ℕ) (body : α)
  | err (status : ℕ) (detail : String)
  deriving DecidableEq

/-- The request body model of POST /api/shoes (class ShoeCreate in
src/main.py): required name, brand, price; the other fields optional or
defaulted. It carries no range constraint on price or rating. -/
structure ShoeCreate where
  name : String
  brand : String
  price : ℚ
  description : Option String
  images : List String
  colors : List String
  sizes : List ℚ
  featured : Bool
  rating : Option ℚ
  in_stock : Bool
  deriving DecidableEq

/-- Read a required string field of the request body. -/
def getStr (d : Doc) (k : String) : Except String String :=
  match Doc.get d k with
  | some (.str s) => .ok s
  | some _ => .error (k ++ ": Input should be a valid string")
  | none => .error (k ++ ": Field required")

/-- Read a required number field of the request body. -/
def getNum (d : Doc) (k : String) : Except String ℚ :=
  match Doc.get d k with
  | some (.num q) => .ok q
  | some _ => .error (k ++ ": Input should be a valid number")
  | none => .error (k ++ ": Field required")

/-- Read an optional string field (absent or null gives none). -/
def getOptStr (d : Doc) (k : String) : Except String (Option String) :=
  match Doc.get d k with
  | some (.str s) => .ok (some s)
  | some .null => .ok none
  | some _ => .error (k ++ ": Input should be a valid string")
  | none => .ok none

/-- Read an optional number field (absent or null gives none). -/
def getOptNum (d : Doc) (k : String) : Except String (Option ℚ) :=
  match Doc.get d k with
  | some (.num q) => .ok (some q)
  | some .null => .ok none
  | some _ => .error (k ++ ": Input should be a valid number")
  | none => .ok none

/-- Read a string-array field with default []. -/
def getStrs (d : Doc) (k : String) : Except String (List String) :=
  match Doc.get d k with
  | some (.strs l) => .ok l
  | some _ => .error (k ++ ": Input should be a valid array")
  | none => .ok []

/-- Read a number-array field with default []. -/
def getNums (d : Doc) (k : String) : Except String (List ℚ) :=
  match Doc.get d k with
  | some (.nums l) => .ok l
  | some _ => .error (k ++ ": Input should be a valid array")
  | none => .ok []

/-- Read a boolean field with the given default. -/
def getBoolD (d : Doc) (k : String) (dflt : Bool) : Except String Bool :=
  match Doc.get d k with
  | some (.bool b) => .ok b
  | some _ => .error (k ++ ": Input should be a valid boolean")
  | none => .ok dflt

/-- FastAPI request validation of a POST /api/shoes body against
ShoeCreate: a missing required field or a wrong-typed field fails the
request with a 422 validation error before the handler body runs. -/
def parseShoeCreate (body : Doc) : Except String ShoeCreate := do
  let name ← getStr body "name"
  let brand ← getStr body "brand"
  let price ← getNum body "price"
  let description ← getOptStr body "description"
  let images ← getStrs body "images"
  let colors ← getStrs body "colors"
  let sizes ← getNums body "sizes"
  let featured ← getBoolD body "featured" false
  let rating ← getOptNum body "rating"
  let in_stock ← getBoolD body "in_stock" true
  .ok { name := name, brand := brand, price := price,
        description := description, images := images, colors := colors,
        sizes := sizes, featured := featured, rating := rating,
        in_stock := in_stock }

/-- The Shoe collection schema of src/schemas.py: the same fields as
ShoeCreate, validated with price ge 0 and rating ge 0, le 5. -/
structure Shoe where
  name : String
  brand : String
  price : ℚ
  description : Option String
  images : List String
  colors : List String
  sizes : List ℚ
  featured : Bool
  rating : Option ℚ
  in_stock : Bool
  deriving DecidableEq

/-- Pydantic validation run by the handler line Shoe(**payload.model_dump()):
checks the Field constraints of the Shoe schema (price ge 0; rating, when
present, ge 0 and le 5). A constraint violation raises a ValidationError
inside the handler body. -/
def Shoe.validate (c : ShoeCreate) : Except String Shoe :=
  if c.price < 0 then
    .error "price: Input should be greater than or equal to 0"
  else
    match c.rating with
    | some r =>
      if r < 0 then .error "rating: Input should be greater than or equal to 0"
      else if 5 < r then .error "rating: Input should be less than or equal to 5"
      else .ok { name := c.name, brand := c.brand, price := c.price,
                 description := c.description, images := c.images,
                 colors := c.colors, sizes := c.sizes, featured := c.featured,
                 rating := some r, in_stock := c.in_stock }
    | none =>
      .ok { name := c.name, brand := c.brand, price := c.price,
            description := c.description, images := c.images,
            colors := c.colors, sizes := c.sizes, featured := c.featured,
            rating := none, in_stock := c.in_stock }

/-- Encode an optional string field of a model dump. -/
def optStrVal : Option String → Val
  | some s => .str s
  | none => .null

/-- Encode an optional number field of a model dump. -/
def optNumVal : Option ℚ → Val
  | some q => .num q
  | none => .null

/-- The model_dump of a validated Shoe: the document handed to the store. -/
def Shoe.toDoc (s : Shoe) : Doc :=
  [("name", .str s.name), ("brand", .str s.brand), ("price", .num s.price),
   ("description", optStrVal s.description), ("images", .strs s.images),
   ("colors", .strs s.colors), ("sizes", .nums s.sizes),
   ("featured", .bool s.featured), ("rating", optNumVal s.rating),
   ("in_stock", .bool s.in_stock)]

/-- The equality filter dict built by list_shoes: an optional brand
condition and an optional featured condition. -/
structure FilterDict where
  brand : Option String
  featured : Option Bool
  deriving DecidableEq

/-- Whether a stored document matches the equality filter. -/
def matchesFilter (f : FilterDict) (d : Doc) : Bool :=
  (match f.brand with
   | none => true
   | some b => Doc.get d "brand" == some (.str b)) &&
  (match f.featured with
   | none => true
   | some x => Doc.get d "featured" == some (.bool x))

/-- Modelled from the spec: get_documents is imported by src/main.py from a
database module that is not under src/. Per the spec it returns up to
limit records matching the equality filter; with the handle unset the read
path is implicitly degraded to no records, while a failing store call
propagates. The model holds the single "shoe" collection, so the collection
name argument selects nothing. -/
def get_documents (_coll : String) (db : Option DBState) (f : FilterDict)
    (limit : ℕ) : Except String (List Doc) :=
  match db with
  | none => .ok []
  | some s =>
    match s.failMsg with
    | some m => .error m
    | none => .ok (List.take limit (List.filter (fun d => matchesFilter f d) s.shoes))

/-- Modelled from the spec: create_document is imported by src/main.py from
a database module that is not under src/. Per the spec it inserts one
record into the named collection, the store assigns a fresh native
identifier, and the newly assigned identifier is returned as a string; with
the store unavailable the write fails and the failure propagates out of the
handler as a generic server error. -/
def create_document (_coll : String) (db : Option DBState) (doc : Doc) :
    Except String (String × DBState) :=
  match db with
  | none => .error "Database not available"
  | some s =>
    match s.failMsg with
    | some m => .error m
    | none =>
      .ok (toString s.nextId,
           { s with shoes := s.shoes ++ [Doc.set doc "_id" (.oid s.nextId)],
                    nextId := s.nextId + 1 })

/-- The filter dict built by list_shoes from its query parameters: the
brand condition is added under Python truthiness (brand supplied and not
the empty string), the featured condition whenever featured is not None. -/
def listFilter (brand : Option String) (featured : Option Bool) : FilterDict :=
  { brand :=
      match brand with
      | none => none
      | some b => if b = "" then none else some b,
    featured := featured }

/-- The string rendering of a native identifier value (str(d["_id"])). -/
def valToString : Val → String
  | .str s => s
  | .num q => toString q.num ++ "/" ++ toString q.den
  | .bool b => toString b
  | .null => "None"
  | .oid n => toString n
  | .time t => toString t
  | .strs l => String.join l
  | .nums _ => "array"

/-- The response shaping loop of list_shoes: when the document has a native
"_id" key, bind "id" to its string rendering and delete "_id". -/
def exposeId (d : Doc) : Doc :=
  match Doc.get d "_id" with
  | some v => Doc.erase (Doc.set d "id" (.str (valToString v))) "_id"
  | none => d

/-- GET /api/shoes: build the filter from the supplied query parameters,
fetch up to limit documents, and replace each native identifier by a
string id field. The store call has no surrounding catch, so a store
failure escapes as a server error. -/
def list_shoes (db : Option DBState) (brand : Option String := none)
    (featured : Option Bool := none) (limit : ℕ := 50) : Resp (List Doc) :=
  match get_documents "shoe" db (listFilter brand featured) limit with
  | .error m => .err 500 m
  | .ok docs => .ok 200 (List.map exposeId docs)

/-- POST /api/shoes: FastAPI validates the body against ShoeCreate (a
failure is a 422 client error and the handler never runs); the handler then
builds Shoe(**payload.model_dump()), whose ValidationError is uncaught and
becomes a 500 server error; on success one document is inserted and the new
identifier is returned as a string with status 201. The second component is
the store state after the request. -/
def create_shoe (db : Option DBState) (body : Doc) :
    Resp String × Option DBState :=
  match parseShoeCreate body with
  | .error m => (.err 422 m, db)
  | .ok payload =>
    match Shoe.validate payload with
    | .error m => (.err 500 m, db)
    | .ok shoe =>
      match create_document "shoe" db (Shoe.toDoc shoe) with
      | .error m => (.err 500 m, db)
      | .ok (iid, s2) => (.ok 201 iid, some s2)

/-- The distinct values of a key across a list of documents (the store's
distinct operation: each value once, documents without the key skipped). -/
def distinctVals (docs : List Doc) (key : String) : List Val :=
  (List.filterMap (fun d => Doc.get d key) docs).dedup

/-- GET /api/brands: distinct brand values, or the empty list when the
store handle is unset. The distinct call itself has no surrounding catch,
so a store failure escapes as a server error. -/
def list_brands (db : Option DBState) : Resp (List Val) :=
  match db with
  | none => .ok 200 []
  | some s =>
    match s.failMsg with
    | some m => .err 500 m
    | none => .ok 200 (distinctVals s.shoes "brand")

/-- The environment as seen by the diagnostics endpoint: whether the two
configuration variables are set (to a truthy value). -/
structure Env where
  database_url_set : Bool
  database_name_set : Bool
  deriving DecidableEq

/-- The body of the GET /test response. -/
structure TestResponse where
  backend : String
  database : String
  database_url : String
  database_name : String
  connection_status : String
  collections : List String
  deriving DecidableEq

/-- Truncation str(e)[:50] of an error message. -/
def strTake (n : ℕ) (s : String) : String :=
  ⟨List.take n s.data⟩

/-- GET /test: a total function — every failure path of the probe is caught
and rendered into the database field of a 200 response. The two
configuration fields are overwritten at the end from the environment, as in
the source. -/
def test_database (db : Option DBState) (env : Env) : Resp TestResponse :=
  let base : TestResponse :=
    { backend := "✅ Running", database := "❌ Not Available",
      database_url := "", database_name := "",
      connection_status := "Not Connected", collections := [] }
  let probed : TestResponse :=
    match db with
    | some s =>
      let r1 := { base with
        database := "✅ Available",
        database_name := s.dbName,
        connection_status := "Connected" }
      match s.failMsg with
      | none =>
        { r1 with
          collections := List.take 10 s.collectionNames,
          database := "✅ Connected & Working" }
      | some e =>
        { r1 with database := "⚠️  Connected but Error: " ++ strTake 50 e }
    | none => { base with database := "⚠️  Available but not initialized" }
  .ok 200
    { probed with
      database_url := if env.database_url_set then "✅ Set" else "❌ Not Set",
      database_name := if env.database_name_set then "✅ Set" else "❌ Not Set" }

/-- The body of the POST /api/seed response: either the already-seeded
message with the existing count, or the number of inserted records. -/
inductive SeedOut where
  | already (count : ℕ)
  | inserted (n : ℕ)
  deriving DecidableEq

/-- The four demo records of seed_demo_data, each carrying created_at and
updated_at set to the single timestamp taken at the top of the insert
branch. -/
def demoItems (now : ℕ) : List Doc :=
  [[("name", .str "Air Zoom Bolt"), ("brand", .str "Nike"),
    ("price", .num 139.99),
    ("description", .str "Responsive cushioning with a sleek, breathable upper."),
    ("images", .strs ["https://images.unsplash.com/photo-1542291026-7eec264c27ff?q=80&w=1200&auto=format&fit=crop"]),
    ("colors", .strs ["Black", "White", "Volt"]),
    ("sizes", .nums [7, 8, 9, 10, 11, 12]),
    ("featured", .bool true), ("rating", .num 4.6),
    ("in_stock", .bool true),
    ("created_at", .time now), ("updated_at", .time now)],
   [("name", .str "UltraRide Blaze"), ("brand", .str "Puma"),
    ("price", .num 119.0),
    ("description", .str "Lightweight ride with energetic foam for daily training."),
    ("images", .strs ["https://images.unsplash.com/photo-1525966222134-fcfa99b8ae77?q=80&w=1200&auto=format&fit=crop"]),
    ("colors", .strs ["Red", "Black"]),
    ("sizes", .nums [6, 7, 8, 9, 10, 11]),
    ("featured", .bool true), ("rating", .num 4.4),
    ("in_stock", .bool true),
    ("created_at", .time now), ("updated_at", .time now)],
   [("name", .str "Air Max Nova"), ("brand", .str "Nike"),
    ("price", .num 159.5),
    ("description", .str "Iconic Air unit comfort remixed for modern lifestyle."),
    ("images", .strs ["https://images.unsplash.com/photo-1519741497674-611481863552?q=80&w=1200&auto=format&fit=crop"]),
    ("colors", .strs ["Blue", "White"]),
    ("sizes", .nums [7, 8, 9, 9.5, 10, 11]),
    ("featured", .bool false), ("rating", .num 4.7),
    ("in_stock", .bool true),
    ("created_at", .time now), ("updated_at", .time now)],
   [("name", .str "RS-Fast Flux"), ("brand", .str "Puma"),
    ("price", .num 99.99),
    ("description", .str "Bold DNA with next-gen cushioning and street-ready looks."),
    ("images", .strs ["https://images.unsplash.com/photo-1542291020-23006e0e2f87?q=80&w=1200&auto=format&fit=crop"]),
    ("colors", .strs ["White", "Teal"]),
    ("sizes", .nums [6, 7, 8, 9, 10]),
    ("featured", .bool false), ("rating", .num 4.2),
    ("in_stock", .bool true),
    ("created_at", .time now), ("updated_at", .time now)]]

/-- POST /api/seed: an unset handle raises HTTPException 500 "Database not
configured"; a failing count_documents call propagates; a non-empty
collection short-circuits with the existing count; otherwise the four demo
items are inserted (the store assigning each a fresh native identifier) and
their number is reported. The second component is the store state after the
request. -/
def seed_demo_data (db : Option DBState) (now : ℕ) :
    Resp SeedOut × Option DBState :=
  match db with
  | none => (.err 500 "Database not configured", none)
  | some s =>
    match s.failMsg with
    | some m => (.err 500 m, some s)
    | none =>
      let count := s.shoes.length
      if 0 < count then (.ok 200 (.already count), some s)
      else
        let items := demoItems now
        let withIds :=
          List.map (fun p => Doc.set p.2 "_id" (.oid (s.nextId + p.1)))
            items.enum
        (.ok 200 (.inserted items.length),
         some { s with
           shoes := s.shoes ++ withIds,
           nextId := s.nextId + items.length })

/-- An empty connected store, used for concrete evaluations. -/
def emptyDB : DBState :=
  { shoes := [], nextId := 0, failMsg := none,
    collectionNames := ["shoe"], dbName := "shoe_store" }

/-- A connected store whose collection operations fail, modelling a set
handle in front of an unreachable server. -/
def failingDB : DBState :=
  { shoes := [], nextId := 0, failMsg := some "connection refused",
    collectionNames := [], dbName := "shoe_store" }

/-- A well-shaped, constraint-satisfying create-shoe request body. -/
def validBody : Doc :=
  [("name", .str "Air Zoom"), ("brand", .str "Nike"), ("price", .num 10)]

/-- A create-shoe request body whose shape is valid but whose price is
negative. -/
def negPriceBody : Doc :=
  [("name", .str "Air Zoom"), ("brand", .str "Nike"), ("price", .num (-1))]

/-- A create-shoe request body with no name field. -/
def missingNameBody : Doc :=
  [("brand", .str "Nike"), ("price", .num 10)]

/-- A create-shoe request body whose name and brand are the empty string,
otherwise valid. -/
def emptyNameBody : Doc :=
  [("name", .str ""), ("brand", .str ""), ("price", .num 0)]

/-- A connected store holding two documents of the same brand. -/
def twoShoeDB : DBState :=
  { shoes := [[("_id", .oid 0), ("name", .str "A"), ("brand", .str "Nike"),
               ("featured", .bool true)],
              [("_id", .oid 1), ("name", .str "B"), ("brand", .str "Nike"),
               ("featured", .bool false)]],
    nextId := 2, failMsg := none, collectionNames := ["shoe"],
    dbName := "shoe_store" }

/-- The shaped form of the first record of twoShoeDB, as list-shoes
returns it. -/
def shapedDoc0 : Doc :=
  exposeId [("_id", .oid 0), ("name", .str "A"), ("brand", .str "Nike"),
            ("featured", .bool true)]

/-- The four demo items all carry the insertion timestamp in created_at and
updated_at. -/
theorem demoItems_stamps (now : ℕ) :
    ∀ d ∈ demoItems now, Doc.get d "created_at" = some (.time now) ∧
      Doc.get d "updated_at" = some (.time now) := by
  intro d hd
  simp only [demoItems, List.mem_cons, List.not_mem_nil, or_false] at hd
  rcases hd with h | h | h | h <;> subst h <;> exact ⟨rfl, rfl⟩

/-- There are four demo items. -/
theorem demoItems_length (now : ℕ) : (demoItems now).length = 4 := rfl

/-- C10: supplying the brand query parameter as the empty string builds the
same filter, and yields the same list-shoes response, as not supplying
brand at all — the brand condition is dropped under Python truthiness. -/
theorem c10_empty_brand_omitted (db : Option DBState) (featured : Option Bool)
    (limit : ℕ) :
    listFilter (some "") featured = listFilter none featured ∧
    list_shoes db (some "") featured limit = list_shoes db none featured limit :=
  ⟨rfl, rfl⟩

/-- C1 counterexample: the create-shoe body with price -1 is rejected
before any store write and the store is unchanged, but the response is a
500 server error (the ShoeCreate request model carries no price constraint,
so the constraint fires only in the in-handler Shoe construction, whose
ValidationError is uncaught), not a client input error as the claim
states. -/
theorem c1_counterexample :
    create_shoe (some emptyDB) negPriceBody =
      (.err 500 "price: Input should be greater than or equal to 0",
       some emptyDB) := by
  rfl

/-- C1 (amended): an invalid create-shoe payload always fails before any
store write and leaves the store unchanged; a missing required field or a
wrong-typed field fails request validation as a 422 client error, while a
well-shaped payload with price < 0 or rating outside [0,5] passes request
validation and fails inside the handler as a 500 server error. -/
theorem c1_invalid_rejected_before_write (db : Option DBState) (body : Doc) :
    (∀ m, parseShoeCreate body = .error m →
        create_shoe db body = (.err 422 m, db)) ∧
    (∀ c m, parseShoeCreate body = .ok c → Shoe.validate c = .error m →
        create_shoe db body = (.err 500 m, db)) ∧
    (∀ c, parseShoeCreate body = .ok c →
        (c.price < 0 ∨ ∃ r, c.rating = some r ∧ (r < 0 ∨ 5 < r)) →
        ∃ m, Shoe.validate c = .error m) := by
  refine ⟨?_, ?_, ?_⟩
  · intro m h
    simp [create_shoe, h]
  · intro c m h h2
    simp [create_shoe, h, h2]
  · intro c _ hbad
    unfold Shoe.validate
    by_cases hp : c.price < 0
    · exact ⟨_, by rw [if_pos hp]⟩
    · rcases hbad with hbad | ⟨r, hr, hb⟩
      · exact absurd hbad hp
      · rw [if_neg hp, hr]
        rcases hb with hb | hb
        · exact ⟨"rating: Input should be greater than or equal to 0",
                 by simp [hb]⟩
        · have hb2 : ¬ r < 0 := by linarith
          exact ⟨"rating: Input should be less than or equal to 5",
                 by simp [hb2, hb]⟩

/-- C1 amended, witnessed at concrete inputs: a missing name is a 422
client error and a negative price a 500 server error, both leaving the
store unchanged. -/
theorem c1_invalid_rejected_before_write_witness :
    create_shoe (some emptyDB) missingNameBody =
      (.err 422 "name: Field required", some emptyDB) ∧
    create_shoe (some emptyDB) negPriceBody =
      (.err 500 "price: Input should be greater than or equal to 0",
       some emptyDB) :=
  ⟨(c1_invalid_rejected_before_write (some emptyDB) missingNameBody).1
      "name: Field required" rfl,
   (c1_invalid_rejected_before_write (some emptyDB) negPriceBody).2.1
      { name := "Air Zoom", brand := "Nike", price := -1,
        description := none, images := [], colors := [], sizes := [],
        featured := false, rating := none, in_stock := true }
      "price: Input should be greater than or equal to 0" rfl rfl⟩

/-- C6 counterexample: with the store handle set but the store call
failing, the list-brands request is not degraded to a descriptive value —
the failure escapes as a 500 server error, refuting the claim that any
store access failure on this path is caught. -/
theorem c6_counterexample :
    list_brands (some failingDB) = .err 500 "connection refused" := rfl

/-- C6 (amended): list-brands returns the distinct brand values across all
shoe records with no duplicates, and the empty list when the store handle
is unset; but a failure of the distinct store call itself is not caught and
fails the request with a 500 server error. -/
theorem c6_brands_distinct (s : DBState) :
    list_brands none = .ok 200 [] ∧
    (s.failMsg = none →
      list_brands (some s) = .ok 200 (distinctVals s.shoes "brand") ∧
      (distinctVals s.shoes "brand").Nodup ∧
      (∀ v, v ∈ distinctVals s.shoes "brand" ↔
          ∃ d ∈ s.shoes, Doc.get d "brand" = some v)) ∧
    (∀ m, s.failMsg = some m → list_brands (some s) = .err 500 m) := by
  refine ⟨rfl, ?_, ?_⟩
  · intro hok
    refine ⟨by simp [list_brands, hok], List.nodup_dedup _, ?_⟩
    intro v
    rw [distinctVals, List.mem_dedup, List.mem_filterMap]
  · intro m hm
    simp [list_brands, hm]

/-- C6 amended, witnessed at concrete inputs: a store holding two Nike
records reports the single distinct brand Nike, and the unset handle
reports the empty list. -/
theorem c6_brands_distinct_witness :
    list_brands none = .ok 200 [] ∧
    list_brands (some twoShoeDB) = .ok 200 [.str "Nike"] ∧
    [Val.str "Nike"].Nodup := by
  refine ⟨(c6_brands_distinct twoShoeDB).1, ?_, by decide⟩
  have h := ((c6_brands_distinct twoShoeDB).2.1 rfl).1
  rw [h]
  rfl

/-- C2: on an initially empty collection the first seed call inserts
exactly the 4 demo records, each stamped with created_at and updated_at at
the insertion time, and reports inserted 4; a second call inserts nothing,
reports the existing count, and leaves the state unchanged; and the guard
fires on any non-empty collection regardless of its content. -/
theorem c2_seed_idempotent (s : DBState) (now now2 : ℕ)
    (hempty : s.shoes = []) (hok : s.failMsg = none) :
    ∃ s1 : DBState,
      seed_demo_data (some s) now = (.ok 200 (.inserted 4), some s1) ∧
      s1.shoes.length = 4 ∧
      (∀ d ∈ s1.shoes, Doc.get d "created_at" = some (.time now) ∧
          Doc.get d "updated_at" = some (.time now)) ∧
      seed_demo_data (some s1) now2 = (.ok 200 (.already 4), some s1) ∧
      (∀ t : DBState, t.failMsg = none → t.shoes ≠ [] →
          seed_demo_data (some t) now2 =
            (.ok 200 (.already t.shoes.length), some t)) := by
  refine ⟨{ s with
      shoes := s.shoes ++
        List.map (fun p => Doc.set p.2 "_id" (.oid (s.nextId + p.1)))
          (demoItems now).enum,
      nextId := s.nextId + (demoItems now).length }, ?_, ?_, ?_, ?_, ?_⟩
  · simp [seed_demo_data, hok, hempty, demoItems_length]
  · simp [hempty, demoItems_length]
  · intro d hd
    simp only [hempty, List.nil_append, List.mem_map] at hd
    obtain ⟨p, hp, hpd⟩ := hd
    have hmem : p.2 ∈ demoItems now := by
      have := List.enum_map_snd (demoItems now)
      have h2 : p.2 ∈ List.map Prod.snd (demoItems now).enum :=
        List.mem_map_of_mem Prod.snd hp
      rwa [this] at h2
    have hstamp := demoItems_stamps now p.2 hmem
    have hne1 : "_id" ≠ "created_at" := by decide
    have hne2 : "_id" ≠ "updated_at" := by decide
    subst hpd
    rw [Doc.get_set_ne _ _ _ _ hne1, Doc.get_set_ne _ _ _ _ hne2]
    exact hstamp
  · simp [seed_demo_data, hok, hempty, demoItems_length]
  · intro t htok htne
    have hpos : 0 < t.shoes.length := List.length_pos.mpr htne
    simp [seed_demo_data, htok, hpos]

/-- C2 witnessed at a concrete input: seeding the empty store at time 0 and
again at time 1. -/
theorem c2_seed_idempotent_witness :
    ∃ s1 : DBState,
      seed_demo_data (some emptyDB) 0 = (.ok 200 (.inserted 4), some s1) ∧
      s1.shoes.length = 4 ∧
      (∀ d ∈ s1.shoes, Doc.get d "created_at" = some (.time 0) ∧
          Doc.get d "updated_at" = some (.time 0)) ∧
      seed_demo_data (some s1) 1 = (.ok 200 (.already 4), some s1) ∧
      (∀ t : DBState, t.failMsg = none → t.shoes ≠ [] →
          seed_demo_data (some t) 1 =
            (.ok 200 (.already t.shoes.length), some t)) :=
  c2_seed_idempotent emptyDB 0 1 rfl rfl

/-- C3: the list-shoes filter carries no condition for a query parameter
that was not supplied, any condition it does carry is the supplied value,
at most limit records are returned, and the limit defaults to 50. -/
theorem c3_filter_from_supplied (s : DBState) (brand : Option String)
    (featured : Option Bool) (limit : ℕ) (hok : s.failMsg = none) :
    (brand = none → (listFilter brand featured).brand = none) ∧
    (featured = none → (listFilter brand featured).featured = none) ∧
    (∀ b, (listFilter brand featured).brand = some b → brand = some b) ∧
    (∀ x, (listFilter brand featured).featured = some x → featured = some x) ∧
    (∀ items, list_shoes (some s) brand featured limit = .ok 200 items →
        items.length ≤ limit) ∧
    list_shoes (some s) brand featured = list_shoes (some s) brand featured 50 := by
  refine ⟨?_, ?_, ?_, ?_, ?_, rfl⟩
  · intro h
    subst h
    rfl
  · intro h
    subst h
    rfl
  · intro b hb
    cases brand with
    | none => exact absurd hb (by simp [listFilter])
    | some b2 =>
      by_cases h2 : b2 = ""
      · exact absurd hb (by simp [listFilter, h2])
      · simp only [listFilter, if_neg h2] at hb
        exact congrArg some (Option.some.inj hb)
  · intro x hx
    exact hx
  · intro items hitems
    simp only [list_shoes, get_documents, hok] at hitems
    obtain ⟨_, hbody⟩ := Resp.ok.inj hitems
    rw [← hbody, List.length_map]
    exact List.length_take_le limit _

/-- C3 witnessed at a concrete input: on a two-record store, limit 1
returns at most one record and the empty query builds the empty filter. -/
theorem c3_filter_from_supplied_witness :
    ((listFilter none none).brand = none) ∧
    ((listFilter none none).featured = none) ∧
    (∀ items, list_shoes (some twoShoeDB) none none 1 = .ok 200 items →
        items.length ≤ 1) :=
  ⟨(c3_filter_from_supplied twoShoeDB none none 1 rfl).1 rfl,
   (c3_filter_from_supplied twoShoeDB none none 1 rfl).2.1 rfl,
   (c3_filter_from_supplied twoShoeDB none none 1 rfl).2.2.2.2.1⟩

/-- C4: when every stored document carries a native identifier, every
record in a successful list-shoes response comes from a stored document,
carries that document's native identifier rendered as a string under the
id key, and carries no native identifier key. -/
theorem c4_id_translation (s : DBState) (brand : Option String)
    (featured : Option Bool) (limit : ℕ) (items : List Doc)
    (hok : s.failMsg = none)
    (hid : ∀ d ∈ s.shoes, ∃ v, Doc.get d "_id" = some v)
    (hreq : list_shoes (some s) brand featured limit = .ok 200 items) :
    ∀ d2 ∈ items, ∃ d ∈ s.shoes, ∃ v,
      Doc.get d "_id" = some v ∧ d2 = exposeId d ∧
      Doc.get d2 "id" = some (.str (valToString v)) ∧
      Doc.get d2 "_id" = none := by
  intro d2 hd2
  simp only [list_shoes, get_documents, hok] at hreq
  obtain ⟨_, hbody⟩ := Resp.ok.inj hreq
  rw [← hbody, List.mem_map] at hd2
  obtain ⟨d, hd, hde⟩ := hd2
  have hds : d ∈ s.shoes :=
    List.mem_of_mem_filter (List.take_subset limit _ hd)
  obtain ⟨v, hv⟩ := hid d hds
  refine ⟨d, hds, v, hv, ?_, ?_, ?_⟩
  · exact hde.symm
  · rw [← hde, exposeId, hv,
        Doc.get_erase_ne _ _ _ (by decide : "_id" ≠ "id"),
        Doc.get_set_same]
  · rw [← hde, exposeId, hv, Doc.get_erase_same]

/-- C4 witnessed at a concrete input: the first record of a two-record
store comes back with a string id and no native identifier key. -/
theorem c4_id_translation_witness :
    ∃ d ∈ twoShoeDB.shoes, ∃ v,
      Doc.get d "_id" = some v ∧ shapedDoc0 = exposeId d ∧
      Doc.get shapedDoc0 "id" = some (.str (valToString v)) ∧
      Doc.get shapedDoc0 "_id" = none := by
  refine c4_id_translation twoShoeDB none none 50 _ rfl ?_ rfl shapedDoc0 ?_
  · intro d hd
    simp only [twoShoeDB, List.mem_cons, List.not_mem_nil, or_false] at hd
    rcases hd with h | h <;> subst h
    · exact ⟨.oid 0, rfl⟩
    · exact ⟨.oid 1, rfl⟩
  · decide

/-- C5: the diagnostics endpoint is a total function that always answers
with status 200: an unset store handle is reported as not initialized, a
failing collection listing is reported with the caught error truncated to
50 characters, and otherwise at most 10 collection names are reported. -/
theorem c5_diagnostics_total (db : Option DBState) (env : Env) :
    ∃ body : TestResponse, test_database db env = .ok 200 body ∧
      (db = none → body.database = "⚠️  Available but not initialized") ∧
      (∀ s m, db = some s → s.failMsg = some m →
          body.database = "⚠️  Connected but Error: " ++ strTake 50 m ∧
          (strTake 50 m).length ≤ 50 ∧ body.collections = []) ∧
      (∀ s, db = some s → s.failMsg = none →
          body.collections = List.take 10 s.collectionNames ∧
          body.collections.length ≤ 10) := by
  have hlen : ∀ m : String, (strTake 50 m).length ≤ 50 := by
    intro m
    show (List.take 50 m.data).length ≤ 50
    exact List.length_take_le 50 _
  cases db with
  | none =>
    refine ⟨_, rfl, fun _ => rfl, ?_, ?_⟩
    · intro s m h
      exact absurd h (by simp)
    · intro s h
      exact absurd h (by simp)
  | some s =>
    cases hfm : s.failMsg with
    | none =>
      refine ⟨_, by rw [test_database, hfm], by simp, ?_, ?_⟩
      · intro s2 m h hm
        rw [Option.some.inj h] at hfm
        rw [hfm] at hm
        exact absurd hm (by simp)
      · intro s2 h _
        rw [← Option.some.inj h]
        exact ⟨rfl, List.length_take_le 10 _⟩
    | some m =>
      refine ⟨_, by rw [test_database, hfm], by simp, ?_, ?_⟩
      · intro s2 m2 h hm
        rw [← Option.some.inj h, hfm] at hm
        rw [← Option.some.inj hm]
        exact ⟨rfl, hlen m, rfl⟩
      · intro s2 h hm
        rw [← Option.some.inj h, hfm] at hm
        exact absurd hm (by simp)

/-- C5 witnessed at concrete inputs: the unset handle and the failing store
both answer 200. -/
theorem c5_diagnostics_total_witness :
    (∃ body : TestResponse,
      test_database none ⟨false, false⟩ = .ok 200 body ∧
      body.database = "⚠️  Available but not initialized") ∧
    (∃ body : TestResponse,
      test_database (some failingDB) ⟨true, true⟩ = .ok 200 body ∧
      body.database =
        "⚠️  Connected but Error: " ++ strTake 50 "connection refused") := by
  constructor
  · obtain ⟨body, h1, h2, _⟩ := c5_diagnostics_total none ⟨false, false⟩
    exact ⟨body, h1, h2 rfl⟩
  · obtain ⟨body, h1, _, h3, _⟩ :=
      c5_diagnostics_total (some failingDB) ⟨true, true⟩
    exact ⟨body, h1, (h3 failingDB "connection refused" rfl rfl).1⟩

/-- C7 counterexample: with the store handle unset, seed raises its
explicit 500 configuration error, but a valid create-shoe request also
fails with a 500 server error (the failed store write propagates), so seed
is not the only operation that raises a server error for store
unavailability. -/
theorem c7_counterexample :
    (seed_demo_data none 0).1 = .err 500 "Database not configured" ∧
    (create_shoe none validBody).1 = .err 500 "Database not available" :=
  ⟨rfl, rfl⟩

/-- C7 (amended): seed raises the explicit server-configuration error
"Database not configured" exactly when the store handle is unset (with the
handle set and the store working it never answers an error, and a failing
store call propagates with its own message); it is the only operation with
such a deliberate configuration error, but not the only one to fail with a
server error when the store is unavailable: a valid create-shoe request
then also fails with a 500 server error, while diagnostics, list-shoes and
list-brands degrade without an HTTP error. -/
theorem c7_seed_config_error (now : ℕ) (env : Env) (s : DBState) :
    (seed_demo_data none now).1 = .err 500 "Database not configured" ∧
    (s.failMsg = none →
        ∀ st m, (seed_demo_data (some s) now).1 ≠ Resp.err st m) ∧
    (∀ m, s.failMsg = some m → (seed_demo_data (some s) now).1 = .err 500 m) ∧
    (∃ body, test_database none env = .ok 200 body) ∧
    list_brands none = .ok 200 [] ∧
    list_shoes none = .ok 200 [] ∧
    (∀ body c shoe, parseShoeCreate body = .ok c → Shoe.validate c = .ok shoe →
        ∃ m, (create_shoe none body).1 = .err 500 m) := by
  refine ⟨rfl, ?_, ?_, ⟨_, rfl⟩, rfl, rfl, ?_⟩
  · intro hok st m
    by_cases hpos : 0 < s.shoes.length
    · simp [seed_demo_data, hok, hpos]
    · simp [seed_demo_data, hok, hpos]
  · intro m hm
    simp [seed_demo_data, hm]
  · intro body c shoe hp hv
    refine ⟨"Database not available", ?_⟩
    simp [create_shoe, hp, hv, create_document]

/-- C7 amended, witnessed at concrete inputs: the unset handle, a working
empty store, and a failing store. -/
theorem c7_seed_config_error_witness :
    (seed_demo_data none 0).1 = .err 500 "Database not configured" ∧
    (∀ st m, (seed_demo_data (some emptyDB) 0).1 ≠ Resp.err st m) ∧
    ((seed_demo_data (some failingDB) 0).1 = .err 500 "connection refused") ∧
    (∃ m, (create_shoe none validBody).1 = .err 500 m) := by
  refine ⟨(c7_seed_config_error 0 ⟨false, false⟩ emptyDB).1,
          (c7_seed_config_error 0 ⟨false, false⟩ emptyDB).2.1 rfl,
          (c7_seed_config_error 0 ⟨false, false⟩ failingDB).2.2.1
            "connection refused" rfl,
          (c7_seed_config_error 0 ⟨false, false⟩ emptyDB).2.2.2.2.2.2
            validBody
            { name := "Air Zoom", brand := "Nike", price := 10,
              description := none, images := [], colors := [], sizes := [],
              featured := false, rating := none, in_stock := true }
            { name := "Air Zoom", brand := "Nike", price := 10,
              description := none, images := [], colors := [], sizes := [],
              featured := false, rating := none, in_stock := true }
            rfl rfl⟩

/-- C8: a create-shoe request whose body parses and validates, against a
working store, inserts exactly one record and answers 201 with the newly
assigned identifier as a string. -/
theorem c8_create_inserts_one (s : DBState) (body : Doc) (c : ShoeCreate)
    (shoe : Shoe) (hok : s.failMsg = none)
    (hp : parseShoeCreate body = .ok c) (hv : Shoe.validate c = .ok shoe) :
    ∃ s2 : DBState,
      create_shoe (some s) body = (.ok 201 (toString s.nextId), some s2) ∧
      s2.shoes = s.shoes ++ [Doc.set (Shoe.toDoc shoe) "_id" (.oid s.nextId)] ∧
      s2.shoes.length = s.shoes.length + 1 := by
  refine ⟨{ s with
      shoes := s.shoes ++ [Doc.set (Shoe.toDoc shoe) "_id" (.oid s.nextId)],
      nextId := s.nextId + 1 }, ?_, rfl, by simp⟩
  simp [create_shoe, hp, hv, create_document, hok]

/-- C8 witnessed at a concrete input: the valid body against the empty
store inserts one record and answers 201 with id "0". -/
theorem c8_create_inserts_one_witness :
    ∃ s2 : DBState,
      create_shoe (some emptyDB) validBody = (.ok 201 "0", some s2) ∧
      s2.shoes = emptyDB.shoes ++
        [Doc.set (Shoe.toDoc
          { name := "Air Zoom", brand := "Nike", price := 10,
            description := none, images := [], colors := [], sizes := [],
            featured := false, rating := none, in_stock := true })
          "_id" (.oid emptyDB.nextId)] ∧
      s2.shoes.length = emptyDB.shoes.length + 1 :=
  c8_create_inserts_one emptyDB validBody
    { name := "Air Zoom", brand := "Nike", price := 10,
      description := none, images := [], colors := [], sizes := [],
      featured := false, rating := none, in_stock := true }
    { name := "Air Zoom", brand := "Nike", price := 10,
      description := none, images := [], colors := [], sizes := [],
      featured := false, rating := none, in_stock := true }
    rfl rfl rfl

/-- Soundness of the Shoe schema validation: an accepted shoe keeps the
payload's name and brand unchanged, its price is non-negative, and its
rating is absent or within [0,5]. -/
theorem Shoe.validate_sound (c : ShoeCreate) (shoe : Shoe)
    (h : Shoe.validate c = .ok shoe) :
    shoe.name = c.name ∧ shoe.brand = c.brand ∧ 0 ≤ shoe.price ∧
    (shoe.rating = none ∨ ∃ r, shoe.rating = some r ∧ 0 ≤ r ∧ r ≤ 5) := by
  unfold Shoe.validate at h
  split at h
  · exact absurd h (by simp)
  · rename_i hp
    split at h
    · rename_i r hr
      split at h
      · exact absurd h (by simp)
      · split at h
        · exact absurd h (by simp)
        · rename_i hb1 hb2
          simp only [Except.ok.injEq] at h
          rw [← h]
          exact ⟨rfl, rfl, le_of_not_lt hp,
                 Or.inr ⟨r, rfl, le_of_not_lt hb1, le_of_not_lt hb2⟩⟩
    · simp only [Except.ok.injEq] at h
      rw [← h]
      exact ⟨rfl, rfl, le_of_not_lt hp, Or.inl rfl⟩

/-- C9 counterexample: the create endpoint admits a record whose name and
brand are the empty string — the payload with empty name, empty brand and
price 0 is accepted with 201 and inserted, refuting the non-empty-text part
of the data-model invariant. -/
theorem c9_counterexample :
    (create_shoe (some emptyDB) emptyNameBody).1 = .ok 201 "0" ∧
    (∃ s2 : DBState, (create_shoe (some emptyDB) emptyNameBody).2 = some s2 ∧
      ∃ d, s2.shoes = [d] ∧ Doc.get d "name" = some (.str "") ∧
        Doc.get d "brand" = some (.str "")) :=
  ⟨rfl, ⟨_, rfl, _, rfl, rfl, rfl⟩⟩

/-- C9 (amended): every record admitted through the create endpoint
satisfies price non-negative and rating absent or within [0,5]; name and
brand are required strings, but non-emptiness is not enforced and the empty
string is admitted. -/
theorem c9_admitted_invariants (db : Option DBState) (body : Doc) (st : ℕ)
    (iid : String) (db2 : Option DBState)
    (h : create_shoe db body = (.ok st iid, db2)) :
    ∃ c shoe, parseShoeCreate body = .ok c ∧ Shoe.validate c = .ok shoe ∧
      shoe.name = c.name ∧ shoe.brand = c.brand ∧ 0 ≤ shoe.price ∧
      (shoe.rating = none ∨ ∃ r, shoe.rating = some r ∧ 0 ≤ r ∧ r ≤ 5) := by
  unfold create_shoe at h
  split at h
  · exact absurd (congrArg Prod.fst h) (by simp)
  · rename_i c hp
    split at h
    · exact absurd (congrArg Prod.fst h) (by simp)
    · rename_i shoe hv
      obtain ⟨h1, h2, h3, h4⟩ := Shoe.validate_sound c shoe hv
      exact ⟨c, shoe, hp, hv, h1, h2, h3, h4⟩

/-- C9 amended, witnessed at a concrete input: the valid body is admitted
and its validated record satisfies the price and rating constraints. -/
theorem c9_admitted_invariants_witness :
    ∃ c shoe, parseShoeCreate validBody = .ok c ∧
      Shoe.validate c = .ok shoe ∧
      shoe.name = c.name ∧ shoe.brand = c.brand ∧ 0 ≤ shoe.price ∧
      (shoe.rating = none ∨ ∃ r, shoe.rating = some r ∧ 0 ≤ r ∧ r ≤ 5) :=
  c9_admitted_invariants (some emptyDB) validBody 201 "0"
    (create_shoe (some emptyDB) validBody).2 rfl

end ShoeStore
